import Mathlib

/-
Verification of the C2PA JNI bridge (c2pa_jni.c) against its
natural-language specification.  The C functions are shallowly embedded as
Lean functions; JNI-environment effects (pending exceptions, allocation
success, host-method results, native-library results) are passed in as
explicit parameters, and each embedded function returns a record of the
observable outcome (value returned to the caller, bytes copied, exception
state on exit, whether the native library was invoked, ...).
-/

/-- Maximum value of a 32-bit signed integer (INT32_MAX in the C source). -/
def int32Max : Int := 2147483647

/-- Model of check_exception (c2pa_jni.c lines 142-149): given the pending
host exception on entry, it reports whether one was pending and — crucially —
clears it (ExceptionDescribe followed by ExceptionClear), so the exception
state after the call is always none. -/
def check_exception (pending : Option String) : Bool × Option String :=
  match pending with
  | some _ => (true, none)
  | none => (false, none)

/-- Model of throw_c2pa_exception (lines 228-236): the message attached to the
raised RuntimeException is the native last-error string when it is non-empty,
otherwise the default message supplied by the call site. -/
def throw_c2pa_exception (lastError : Option String) (defaultMessage : String) : String :=
  match lastError with
  | some e => if e.length > 0 then e else defaultMessage
  | none => defaultMessage

/-- Observable outcome of a stream callback: the intptr value returned to the
native library, the number of bytes copied into the native buffer, and the
pending host exception when control returns across the boundary. -/
structure CallbackOutcome where
  ret : Int
  copiedToNative : Nat
  pendingAfter : Option String
deriving DecidableEq

/-- Model of java_read_callback (lines 254-287).  Parameters: whether
get_jni_env succeeded, the requested length (intptr, may be negative), the
native last-error string, whether NewByteArray succeeded, the count returned
by the host read method, the exception the host read method left pending, and
whether GetByteArrayRegion succeeded. -/
def java_read_callback (envOk : Bool) (len : Int) (lastError : Option String)
    (allocOk : Bool) (hostRet : Int) (hostPending : Option String)
    (regionOk : Bool) : CallbackOutcome :=
  if ¬envOk then ⟨-1, 0, none⟩
  else if len > int32Max then
    ⟨-1, 0, some (throw_c2pa_exception lastError "Requested buffer too large for JNI")⟩
  else if len < 0 then ⟨-1, 0, some "Array size cannot be negative"⟩
  else if ¬allocOk then ⟨-1, 0, none⟩
  else if hostPending.isSome then ⟨-1, 0, none⟩
  else if hostRet > 0 ∧ hostRet ≤ len then
    if ¬regionOk then ⟨-1, 0, none⟩
    else ⟨hostRet, hostRet.toNat, none⟩
  else ⟨hostRet, 0, none⟩

/-- Model of java_seek_callback (lines 289-302): the offset and mode are
forwarded verbatim to the host, so only the host result and exception state
matter for the outcome. -/
def java_seek_callback (envOk : Bool) (hostRet : Int)
    (hostPending : Option String) : CallbackOutcome :=
  if ¬envOk then ⟨-1, 0, none⟩
  else if hostPending.isSome then ⟨-1, 0, none⟩
  else ⟨hostRet, 0, none⟩

/-- Model of java_write_callback (lines 304-335).  regionOk models the
SetByteArrayRegion call that copies the native buffer into the transient host
array before the host write method is invoked. -/
def java_write_callback (envOk : Bool) (len : Int) (lastError : Option String)
    (allocOk : Bool) (regionOk : Bool) (hostRet : Int)
    (hostPending : Option String) : CallbackOutcome :=
  if ¬envOk then ⟨-1, 0, none⟩
  else if len > int32Max then
    ⟨-1, 0, some (throw_c2pa_exception lastError "Requested buffer too large for JNI")⟩
  else if len < 0 then ⟨-1, 0, some "Array size cannot be negative"⟩
  else if ¬allocOk then ⟨-1, 0, none⟩
  else if ¬regionOk then ⟨-1, 0, none⟩
  else if hostPending.isSome then ⟨-1, 0, none⟩
  else ⟨hostRet, 0, none⟩

/-- Model of java_flush_callback (lines 337-350). -/
def java_flush_callback (envOk : Bool) (hostRet : Int)
    (hostPending : Option String) : CallbackOutcome :=
  if ¬envOk then ⟨-1, 0, none⟩
  else if hostPending.isSome then ⟨-1, 0, none⟩
  else ⟨hostRet, 0, none⟩

/-- Host-side signer callback context (struct JavaSignerContext, lines 40-44):
whether the context is still active and whether the global reference to the
host callback object is present. -/
structure JavaSignerContext where
  isActive : Bool
  hasCallback : Bool
deriving DecidableEq

/-- Observable outcome of the signer callback: the intptr value returned to
the native library, the number of times the host callback object was
dereferenced (invoked), and the pending host exception on exit. -/
structure SignerCbOutcome where
  ret : Int
  hostDerefs : Nat
  pendingAfter : Option String
deriving DecidableEq

/-- Model of java_signer_callback (lines 353-411).  len and signedCap are
uintptr (unsigned).  hostSig is the byte array returned by the host sign
method (none models both a pending-exception return and an explicit null,
distinguished by hostPending). -/
def java_signer_callback (ctx : JavaSignerContext) (envOk : Bool) (len : Nat)
    (lastError : Option String) (allocOk : Bool) (regionOk : Bool)
    (hostSig : Option (List Int)) (hostPending : Option String)
    (sigRegionOk : Bool) (signedCap : Nat) : SignerCbOutcome :=
  if ¬ctx.isActive then ⟨-1, 0, none⟩
  else if ¬envOk then ⟨-1, 0, none⟩
  else if (len : Int) > int32Max then
    ⟨-1, 0, some (throw_c2pa_exception lastError "Requested buffer too large for JNI")⟩
  else if ¬allocOk then ⟨-1, 0, none⟩
  else if ¬regionOk then ⟨-1, 0, none⟩
  else if hostPending.isSome then ⟨-1, 1, none⟩
  else match hostSig with
    | none => ⟨-1, 1, none⟩
    | some sig =>
      if sig.length > signedCap then ⟨-1, 1, none⟩
      else if ¬sigRegionOk then ⟨-1, 1, none⟩
      else ⟨(sig.length : Int), 1, none⟩

/-- Node of the process-global signer registry (struct SignerContextNode,
lines 46-50); the linked list itself is modelled as a Lean list. -/
structure SignerContextNode where
  signer : Nat
  context : Option JavaSignerContext
deriving DecidableEq

/-- Teardown events performed on a registry node, in program order: the
active flag is cleared, the global reference to the host callback is dropped,
the context record is freed, the list node is freed. -/
inductive CtxEvent where
  | setInactive : Nat → CtxEvent
  | dropHostRef : Nat → CtxEvent
  | freeContext : Nat → CtxEvent
  | freeNode : Nat → CtxEvent
deriving DecidableEq

/-- Events emitted when one registry node is torn down, in the order the C
code performs them (shared by unregister_signer_context, lines 1077-1105, and
cleanup_all_signer_contexts, lines 90-112): when a context is present, its
isActive flag is set to false first, then — when an env is available and the
callback reference is non-null — the global reference is deleted, then the
context is freed, and finally the node itself is freed. -/
def nodeCleanupEvents (envOk : Bool) (node : SignerContextNode) : List CtxEvent :=
  (match node.context with
   | some ctx =>
       CtxEvent.setInactive node.signer ::
         ((if envOk && ctx.hasCallback then [CtxEvent.dropHostRef node.signer] else []) ++
           [CtxEvent.freeContext node.signer])
   | none => []) ++ [CtxEvent.freeNode node.signer]

/-- Model of unregister_signer_context (lines 1077-1105): walks the registry,
splices out the first node whose signer pointer matches, and tears it down;
returns the registry after the call together with the teardown events in
order.  envOk models whether get_jni_env succeeded inside the teardown. -/
def unregister_signer_context (reg : List SignerContextNode) (signer : Nat)
    (envOk : Bool) : List SignerContextNode × List CtxEvent :=
  match reg with
  | [] => ([], [])
  | node :: rest =>
    if node.signer = signer then (rest, nodeCleanupEvents envOk node)
    else ((node :: (unregister_signer_context rest signer envOk).1),
          (unregister_signer_context rest signer envOk).2)

/-- Model of cleanup_all_signer_contexts (lines 90-112): tears down every
remaining node front to back (env is supplied by the caller, JNI_OnUnload)
and leaves the registry empty. -/
def cleanup_all_signer_contexts (reg : List SignerContextNode) :
    List SignerContextNode × List CtxEvent :=
  match reg with
  | [] => ([], [])
  | node :: rest =>
    ([], nodeCleanupEvents true node ++ (cleanup_all_signer_contexts rest).2)

/-- Ordering discipline on a teardown trace: every drop of a host callback
reference for signer s is preceded (strictly earlier in the trace) by the
clearing of the active flag for that same signer. -/
def setBeforeDrop (evs : List CtxEvent) : Prop :=
  ∀ s, CtxEvent.dropHostRef s ∈ evs →
    List.Sublist [CtxEvent.setInactive s, CtxEvent.dropHostRef s] evs

/-- Outcome of a Handle Gateway entry point: whether the native library
function was invoked, the exception raised to the host (none when the entry
point returns without raising), the integer or handle result, and the string
result for string-returning operations. -/
structure EntryOutcome where
  nativeCalled : Bool
  raisedMsg : Option String
  retInt : Int
  retStr : Option String
deriving DecidableEq

/-- Model of Java_org_contentauth_c2pa_Reader_fromStreamNative
(lines 585-608): validates arguments, and raises a native failure when
c2pa_reader_from_stream returns null. -/
def Java_org_contentauth_c2pa_Reader_fromStreamNative (format : Option String)
    (streamPtr : Int) (pinOk : Bool) (native : Option Int)
    (lastError : Option String) : EntryOutcome :=
  if format = none ∨ streamPtr = 0 then
    ⟨false, some "Format and stream cannot be null", 0, none⟩
  else if ¬pinOk then ⟨false, none, 0, none⟩
  else match native with
    | none => ⟨true, some (throw_c2pa_exception lastError "Failed to create reader from stream"), 0, none⟩
    | some p => ⟨true, none, p, none⟩

/-- Model of Java_org_contentauth_c2pa_Reader_fromManifestDataAndStreamNative
(lines 610-652): validates arguments and rejects empty manifest data, but
when c2pa_reader_from_manifest_data_and_stream returns null it casts the null
to handle 0 and returns it without raising anything. -/
def Java_org_contentauth_c2pa_Reader_fromManifestDataAndStreamNative
    (format : Option String) (streamPtr : Int) (manifestData : Option (List Int))
    (pinOk : Bool) (elemsOk : Bool) (native : Option Int) : EntryOutcome :=
  if format = none ∨ streamPtr = 0 ∨ manifestData = none then
    ⟨false, some "Format, stream, and manifest data cannot be null", 0, none⟩
  else if ¬pinOk then ⟨false, none, 0, none⟩
  else if (manifestData.getD []).length = 0 then
    ⟨false, some "Manifest data cannot be empty", 0, none⟩
  else if ¬elemsOk then ⟨false, none, 0, none⟩
  else match native with
    | none => ⟨true, none, 0, none⟩
    | some p => ⟨true, none, p, none⟩

/-- Model of Java_org_contentauth_c2pa_Reader_toJsonNative (lines 660-678). -/
def Java_org_contentauth_c2pa_Reader_toJsonNative (readerPtr : Int)
    (native : Option String) (lastError : Option String) : EntryOutcome :=
  if readerPtr = 0 then ⟨false, some "Reader is not initialized", 0, none⟩
  else match native with
    | none => ⟨true, some (throw_c2pa_exception lastError "Failed to generate JSON from reader"), 0, none⟩
    | some j => ⟨true, none, 0, some j⟩

/-- Model of Java_org_contentauth_c2pa_Builder_nativeFromJson
(lines 753-774). -/
def Java_org_contentauth_c2pa_Builder_nativeFromJson (manifestJson : Option String)
    (pinOk : Bool) (native : Option Int) (lastError : Option String) : EntryOutcome :=
  if manifestJson = none then ⟨false, some "Manifest JSON cannot be null", 0, none⟩
  else if ¬pinOk then ⟨false, none, 0, none⟩
  else match native with
    | none => ⟨true, some (throw_c2pa_exception lastError "Failed to create builder from JSON"), 0, none⟩
    | some p => ⟨true, none, p, none⟩

/-- Model of Java_org_contentauth_c2pa_Builder_nativeFromArchive
(lines 776-792). -/
def Java_org_contentauth_c2pa_Builder_nativeFromArchive (streamPtr : Int)
    (native : Option Int) (lastError : Option String) : EntryOutcome :=
  if streamPtr = 0 then ⟨false, some "Stream cannot be null", 0, none⟩
  else match native with
    | none => ⟨true, some (throw_c2pa_exception lastError "Failed to create builder from archive"), 0, none⟩
    | some p => ⟨true, none, p, none⟩

/-- Model of Java_org_contentauth_c2pa_Builder_setIntentNative
(lines 800-809). -/
def Java_org_contentauth_c2pa_Builder_setIntentNative (builderPtr : Int)
    (intent : Int) (digitalSourceType : Int) (nativeRet : Int) : EntryOutcome :=
  if builderPtr = 0 then ⟨false, some "Builder is not initialized", -1, none⟩
  else ⟨true, none, nativeRet, none⟩

/-- Model of Java_org_contentauth_c2pa_Builder_addActionNative
(lines 811-826). -/
def Java_org_contentauth_c2pa_Builder_addActionNative (builderPtr : Int)
    (actionJson : Option String) (pinOk : Bool) (nativeRet : Int) : EntryOutcome :=
  if builderPtr = 0 ∨ actionJson = none then
    ⟨false, some "Builder and action JSON cannot be null", -1, none⟩
  else if ¬pinOk then ⟨false, none, -1, none⟩
  else ⟨true, none, nativeRet, none⟩

/-- Model of Java_org_contentauth_c2pa_Builder_addResourceNative
(lines 855-861): the function performs no validation at all — it pins the
URI (null URI yields a null C string) and calls c2pa_builder_add_resource
unconditionally, whatever the builder and stream handles are. -/
def Java_org_contentauth_c2pa_Builder_addResourceNative (builderPtr : Int)
    (uri : Option String) (streamPtr : Int) (nativeRet : Int) : EntryOutcome :=
  ⟨true, none, nativeRet, none⟩

/-- Model of Java_org_contentauth_c2pa_Builder_toArchiveNative
(lines 878-882): casts both handles and calls c2pa_builder_to_archive with
no validation. -/
def Java_org_contentauth_c2pa_Builder_toArchiveNative (builderPtr : Int)
    (streamPtr : Int) (nativeRet : Int) : EntryOutcome :=
  ⟨true, none, nativeRet, none⟩

/-- Model of Java_org_contentauth_c2pa_Signer_reserveSizeNative
(lines 1194-1196): calls c2pa_signer_reserve_size with no validation and
returns its result verbatim. -/
def Java_org_contentauth_c2pa_Signer_reserveSizeNative (signerPtr : Int)
    (nativeRet : Int) : EntryOutcome :=
  ⟨true, none, nativeRet, none⟩

/-- Outcome of Builder sign: the exception raised to the host (if any), the
SignResult constructed (size together with the optional manifest byte array),
and whether c2pa_manifest_bytes_free was called on the native buffer. -/
structure SignNativeOutcome where
  raisedMsg : Option String
  result : Option (Int × Option (List Int))
  nativeFreed : Bool
deriving DecidableEq

/-- Model of Java_org_contentauth_c2pa_Builder_signNative (lines 884-956).
nativeSize and manifestBytes are the out-parameters of c2pa_builder_sign;
allocOk, regionOk and newObjOk model the host allocation of the fresh byte
array, the copy into it, and the SignResult constructor call.  The cached
SignResult class and its constructor lookup are modelled as present. -/
def Java_org_contentauth_c2pa_Builder_signNative (builderPtr : Int)
    (format : Option String) (sourceStreamPtr destStreamPtr signerPtr : Int)
    (pinOk : Bool) (lastError : Option String) (nativeSize : Int)
    (manifestBytes : Option (List Int)) (allocOk regionOk newObjOk : Bool) :
    SignNativeOutcome :=
  if builderPtr = 0 ∨ format = none ∨ sourceStreamPtr = 0 ∨ destStreamPtr = 0 ∨ signerPtr = 0 then
    ⟨some "Builder, format, streams, and signer cannot be null", none, false⟩
  else if ¬pinOk then ⟨none, none, false⟩
  else if nativeSize < 0 then
    ⟨some (throw_c2pa_exception lastError "Failed to sign builder"), none, false⟩
  else if manifestBytes.isSome ∧ nativeSize > 0 then
    if ¬allocOk then ⟨none, none, true⟩
    else if ¬regionOk then ⟨none, none, true⟩
    else if ¬newObjOk then ⟨none, none, true⟩
    else ⟨none, some (nativeSize, some ((manifestBytes.getD []).take nativeSize.toNat)), true⟩
  else if ¬newObjOk then ⟨none, none, false⟩
  else ⟨none, some (nativeSize, none), false⟩

/-- The enum C2paSigningAlg as assigned in Signer_nativeFromCallback. -/
inductive C2paSigningAlg where
  | es256 | es384 | es512 | ps256 | ps384 | ps512 | ed25519
deriving DecidableEq

/-- Algorithm-string dispatch performed by the strcmp chain in
Java_org_contentauth_c2pa_Signer_nativeFromCallback (lines 1118-1131). -/
def parse_signing_alg (s : String) : Option C2paSigningAlg :=
  if s = "es256" then some C2paSigningAlg.es256
  else if s = "es384" then some C2paSigningAlg.es384
  else if s = "es512" then some C2paSigningAlg.es512
  else if s = "ps256" then some C2paSigningAlg.ps256
  else if s = "ps384" then some C2paSigningAlg.ps384
  else if s = "ps512" then some C2paSigningAlg.ps512
  else if s = "ed25519" then some C2paSigningAlg.ed25519
  else none

/-- The seven algorithm spellings the spec says are accepted. -/
def acceptedAlgs : List String :=
  ["es256", "es384", "es512", "ps256", "ps384", "ps512", "ed25519"]

/-- Outcome of signer creation from a callback: the exception raised to the
host, whether c2pa_signer_create was invoked, and the returned handle. -/
structure FromCallbackOutcome where
  raisedMsg : Option String
  nativeCreateCalled : Bool
  handle : Nat
deriving DecidableEq

/-- Model of Java_org_contentauth_c2pa_Signer_nativeFromCallback
(lines 1107-1192).  hasCallback is whether the callback object argument is
non-null; pinOk / certsPinOk model GetStringUTFChars on algorithm and
certificate chain; allocOk the calloc of the context; refOk NewGlobalRef;
methodOk the sign-method lookup; native the result of c2pa_signer_create. -/
def Java_org_contentauth_c2pa_Signer_nativeFromCallback
    (algorithm certificateChain tsaURL : Option String) (hasCallback : Bool)
    (pinOk certsPinOk allocOk refOk methodOk : Bool)
    (native : Option Nat) : FromCallbackOutcome :=
  if algorithm = none ∨ certificateChain = none ∨ ¬hasCallback then
    ⟨some "Required parameters cannot be null", false, 0⟩
  else if ¬pinOk then ⟨none, false, 0⟩
  else match parse_signing_alg (algorithm.getD "") with
    | none => ⟨some "Unknown signing algorithm", false, 0⟩
    | some _ =>
      if ¬certsPinOk then ⟨none, false, 0⟩
      else if ¬allocOk then ⟨some "Failed to allocate signer context", false, 0⟩
      else if ¬refOk then ⟨none, false, 0⟩
      else if ¬methodOk then ⟨none, false, 0⟩
      else match native with
        | none => ⟨none, true, 0⟩
        | some p => ⟨none, true, p⟩

/-- Outcome of the ed25519 sign entry point. -/
structure Ed25519Outcome where
  raisedMsg : Option String
  nativeCalled : Bool
  result : Option (List Int)
deriving DecidableEq

/-- Model of Java_org_contentauth_c2pa_C2PA_ed25519SignNative
(lines 1210-1255).  The native c2pa_ed25519_sign returns a raw pointer with
no length information, modelled as an unbounded byte source; on a non-null
return the bridge allocates a 64-byte host array and copies exactly the first
64 bytes into it. -/
def Java_org_contentauth_c2pa_C2PA_ed25519SignNative (data : Option (List Int))
    (privateKey : Option String) (elemsOk pinOk : Bool)
    (nativeSig : Option (Nat → Int)) (allocOk regionOk : Bool) : Ed25519Outcome :=
  if data = none ∨ privateKey = none then
    ⟨some "Data and private key cannot be null", false, none⟩
  else if (data.getD []).length = 0 then
    ⟨some "Data cannot be empty", false, none⟩
  else if ¬elemsOk then ⟨none, false, none⟩
  else if ¬pinOk then ⟨none, false, none⟩
  else match nativeSig with
    | none => ⟨none, true, none⟩
    | some f =>
      if ¬allocOk then ⟨none, true, none⟩
      else if ¬regionOk then ⟨none, true, none⟩
      else ⟨none, true, some ((List.range 64).map f)⟩

/-- Result of GetEnv in get_jni_env: the thread is already attached (JNI_OK),
detached (JNI_EDETACHED), or the query failed. -/
inductive AttachStatus where
  | attached
  | detachedThread
  | failed
deriving DecidableEq

/-- Outcome of get_jni_env for the current thread: whether an env was
obtained, and whether the thread-local attached marker was stored
(pthread_setspecific with a non-null value). -/
structure GetEnvOutcome where
  gotEnv : Bool
  markerSet : Bool
deriving DecidableEq

/-- Model of get_jni_env (lines 198-225): jvmPresent is whether g_jvm is
non-null under the mutex; status the GetEnv result for this thread; attachOk
whether AttachCurrentThread succeeds.  The marker is stored only on the path
where the bridge itself attached the thread. -/
def get_jni_env (jvmPresent : Bool) (status : AttachStatus) (attachOk : Bool) :
    GetEnvOutcome :=
  if jvmPresent then
    match status with
    | AttachStatus.attached => ⟨true, false⟩
    | AttachStatus.detachedThread => if attachOk then ⟨true, true⟩ else ⟨false, false⟩
    | AttachStatus.failed => ⟨false, false⟩
  else ⟨false, false⟩

/-- Model of thread_detach_destructor (lines 179-190): invoked at thread exit
with the thread-local marker value; reads g_jvm under the mutex and calls
DetachCurrentThread iff the marker is set and the runtime is still present.
Returns whether the thread was detached. -/
def thread_detach_destructor (markerValue : Bool) (jvmAtExit : Bool) : Bool :=
  markerValue && jvmAtExit

/-- The thread-local marker accumulated over a thread lifetime: one entry per
get_jni_env call, each a triple (g_jvm present, GetEnv status, attach
success); pthread_setspecific is never un-set, so the marker is the or-fold
of the markerSet outcomes. -/
def threadMarker (calls : List (Bool × AttachStatus × Bool)) : Bool :=
  calls.foldl (fun m c => m || (get_jni_env c.1 c.2.1 c.2.2).markerSet) false

lemma setBeforeDrop_nil : setBeforeDrop [] := by
  intro s h
  simp at h

lemma setBeforeDrop_node (envOk : Bool) (node : SignerContextNode) :
    setBeforeDrop (nodeCleanupEvents envOk node) := by
  intro s hmem
  cases hctx : node.context with
  | none =>
    simp [nodeCleanupEvents, hctx] at hmem
  | some ctx =>
    by_cases hc : (envOk && ctx.hasCallback) = true
    · have hev : nodeCleanupEvents envOk node =
          [CtxEvent.setInactive node.signer, CtxEvent.dropHostRef node.signer,
           CtxEvent.freeContext node.signer, CtxEvent.freeNode node.signer] := by
        simp [nodeCleanupEvents, hctx, hc]
      rw [hev] at hmem ⊢
      have hs : s = node.signer := by
        simp at hmem
        exact hmem
      subst hs
      exact ((List.nil_sublist _).cons₂ _).cons₂ _
    · have hev : nodeCleanupEvents envOk node =
          [CtxEvent.setInactive node.signer, CtxEvent.freeContext node.signer,
           CtxEvent.freeNode node.signer] := by
        simp [nodeCleanupEvents, hctx, hc]
      rw [hev] at hmem
      simp at hmem

lemma setBeforeDrop_append {l r : List CtxEvent} (hl : setBeforeDrop l)
    (hr : setBeforeDrop r) : setBeforeDrop (l ++ r) := by
  intro s hmem
  rcases List.mem_append.mp hmem with h | h
  · exact (hl s h).trans (List.sublist_append_left l r)
  · exact (hr s h).trans (List.sublist_append_right l r)

lemma setBeforeDrop_unregister (s : Nat) (envOk : Bool) :
    ∀ reg : List SignerContextNode,
      setBeforeDrop (unregister_signer_context reg s envOk).2 := by
  intro reg
  induction reg with
  | nil => exact setBeforeDrop_nil
  | cons node rest ih =>
    simp only [unregister_signer_context]
    by_cases h : node.signer = s
    · rw [if_pos h]
      exact setBeforeDrop_node envOk node
    · rw [if_neg h]
      exact ih

lemma setBeforeDrop_cleanup (reg : List SignerContextNode) :
    setBeforeDrop (cleanup_all_signer_contexts reg).2 := by
  induction reg with
  | nil => exact setBeforeDrop_nil
  | cons node rest ih =>
    exact setBeforeDrop_append (setBeforeDrop_node true node) ih

lemma unregister_removes (s : Nat) (envOk : Bool) :
    ∀ reg : List SignerContextNode,
      (reg.map SignerContextNode.signer).Nodup →
      ∀ n ∈ (unregister_signer_context reg s envOk).1, n.signer ≠ s := by
  intro reg
  induction reg with
  | nil =>
    intro _ n hn
    simp [unregister_signer_context] at hn
  | cons node rest ih =>
    intro hnd n hn
    rw [List.map_cons, List.nodup_cons] at hnd
    obtain ⟨hhead, htail⟩ := hnd
    simp only [unregister_signer_context] at hn
    by_cases h : node.signer = s
    · rw [if_pos h] at hn
      intro hns
      have hmem : n.signer ∈ List.map SignerContextNode.signer rest :=
        List.mem_map_of_mem _ hn
      rw [hns, ← h] at hmem
      exact hhead hmem
    · rw [if_neg h] at hn
      rcases List.mem_cons.mp hn with rfl | h2
      · exact h
      · exact ih htail n h2

lemma unregister_frees_node (s : Nat) (envOk : Bool) :
    ∀ reg : List SignerContextNode, (∃ n ∈ reg, n.signer = s) →
      CtxEvent.freeNode s ∈ (unregister_signer_context reg s envOk).2 := by
  intro reg
  induction reg with
  | nil =>
    rintro ⟨n, hn, -⟩
    simp at hn
  | cons node rest ih =>
    rintro ⟨n, hn, hns⟩
    simp only [unregister_signer_context]
    by_cases h : node.signer = s
    · rw [if_pos h]
      rw [← h]
      cases hctx : node.context <;> simp [nodeCleanupEvents, hctx]
    · rw [if_neg h]
      rcases List.mem_cons.mp hn with rfl | h2
      · exact absurd hns h
      · exact ih ⟨n, h2, hns⟩

lemma markerSet_attached (jvmPresent : Bool) (attachOk : Bool) :
    (get_jni_env jvmPresent AttachStatus.attached attachOk).markerSet = false := by
  cases jvmPresent <;> simp [get_jni_env]

lemma threadMarker_all_attached :
    ∀ calls : List (Bool × AttachStatus × Bool),
      (∀ c ∈ calls, c.2.1 = AttachStatus.attached) → threadMarker calls = false := by
  intro calls
  induction calls with
  | nil => intro _; rfl
  | cons c cs ih =>
    intro h
    have hc : c.2.1 = AttachStatus.attached := h c (List.mem_cons_self c cs)
    have hcs : ∀ x ∈ cs, x.2.1 = AttachStatus.attached :=
      fun x hx => h x (List.mem_cons_of_mem c hx)
    have hms : (get_jni_env c.1 c.2.1 c.2.2).markerSet = false := by
      rw [hc]
      exact markerSet_attached c.1 c.2.2
    have : threadMarker (c :: cs) = threadMarker cs := by
      simp [threadMarker, List.foldl, hms]
    rw [this]
    exact ih hcs

/-- Claim C1, counterexample: the claim says a host failure left pending by
the invoked host method remains pending when the callback returns.  At a
concrete input (read of length 8, host read leaves exception "oops" pending)
the callback does return -1, but the pending failure has been cleared — the
exception state on exit is none, not some "oops". -/
theorem claim_c1_counterexample :
    (java_read_callback true 8 none true 0 (some "oops") true).ret = -1 ∧
    (java_read_callback true 8 none true 0 (some "oops") true).pendingAfter = none ∧
    (java_read_callback true 8 none true 0 (some "oops") true).pendingAfter ≠ some "oops" := by
  decide

/-- Claim C1, amended: for every callback the bridge installs (stream read,
seek, write, flush, and signer sign), if the invoked host method leaves a
host-side failure pending on return, the callback returns -1 and the pending
failure is described and cleared before control returns to the native
library (check_exception calls ExceptionClear), so no host failure is
pending when the native library resumes. -/
theorem claim_c1_pending_failure_cleared (len : Int) (cap lenN : Nat)
    (lastErr : Option String) (hostRet : Int) (m : String)
    (sig : Option (List Int)) (ctx : JavaSignerContext)
    (h0 : 0 ≤ len) (h1 : len ≤ int32Max) (h2 : (lenN : Int) ≤ int32Max)
    (hctx : ctx.isActive = true) :
    java_read_callback true len lastErr true hostRet (some m) true = ⟨-1, 0, none⟩ ∧
    java_seek_callback true hostRet (some m) = ⟨-1, 0, none⟩ ∧
    java_write_callback true len lastErr true true hostRet (some m) = ⟨-1, 0, none⟩ ∧
    java_flush_callback true hostRet (some m) = ⟨-1, 0, none⟩ ∧
    java_signer_callback ctx true lenN lastErr true true sig (some m) true cap =
      ⟨-1, 1, none⟩ := by
  refine ⟨?_, ?_, ?_, ?_, ?_⟩ <;>
    simp [java_read_callback, java_seek_callback, java_write_callback,
      java_flush_callback, java_signer_callback, hctx,
      not_lt.mpr h1, not_lt.mpr h0, not_lt.mpr h2]

/-- Claim C1, witness for the amended theorem at a concrete input. -/
theorem claim_c1_witness :
    java_read_callback true 4 none true 0 (some "boom") true = ⟨-1, 0, none⟩ :=
  (claim_c1_pending_failure_cleared 4 64 4 none 0 "boom" none ⟨true, true⟩
    (by decide) (by decide) (by decide) rfl).1

/-- Claim C2: evaluation at the failing input.  With requested length L = 4
and the host read method returning 10 with no exception pending, the
callback copies nothing but returns 10 to the native library as a success
count instead of treating the out-of-range count as a failure. -/
theorem claim_c2_overlong_count_returned :
    java_read_callback true 4 none true 10 none true = ⟨10, 0, none⟩ ∧
    (java_read_callback true 4 none true 10 none true).ret ≠ -1 := by
  decide

/-- Claim C3, counterexample: the from-manifest-and-stream entry point, with
valid arguments and the native call returning null, returns handle 0 to the
host without raising anything — refuting the claim that every handle
gateway entry point raises a NativeFailure on a null native result. -/
theorem claim_c3_counterexample :
    Java_org_contentauth_c2pa_Reader_fromManifestDataAndStreamNative
      (some "image/jpeg") 1 (some [0]) true true none = ⟨true, none, 0, none⟩ := by
  decide

/-- Claim C3, amended: entry points such as reader from-stream, reader
to-json, builder from-json, and builder from-archive do raise a failure when
the native library returns null, but reader from-manifest-and-stream returns
handle zero silently on a null native result. -/
theorem claim_c3_raises_except_manifest_reader (fmt json : String) (sp rp ap : Int)
    (lastErr : Option String) (md : List Int)
    (hsp : sp ≠ 0) (hrp : rp ≠ 0) (hap : ap ≠ 0) (hmd : md ≠ []) :
    (Java_org_contentauth_c2pa_Reader_fromStreamNative (some fmt) sp true none
      lastErr).raisedMsg.isSome ∧
    (Java_org_contentauth_c2pa_Reader_toJsonNative rp none lastErr).raisedMsg.isSome ∧
    (Java_org_contentauth_c2pa_Builder_nativeFromJson (some json) true none
      lastErr).raisedMsg.isSome ∧
    (Java_org_contentauth_c2pa_Builder_nativeFromArchive ap none lastErr).raisedMsg.isSome ∧
    Java_org_contentauth_c2pa_Reader_fromManifestDataAndStreamNative
      (some fmt) sp (some md) true true none = ⟨true, none, 0, none⟩ := by
  refine ⟨?_, ?_, ?_, ?_, ?_⟩ <;>
    simp [Java_org_contentauth_c2pa_Reader_fromStreamNative,
      Java_org_contentauth_c2pa_Reader_toJsonNative,
      Java_org_contentauth_c2pa_Builder_nativeFromJson,
      Java_org_contentauth_c2pa_Builder_nativeFromArchive,
      Java_org_contentauth_c2pa_Reader_fromManifestDataAndStreamNative,
      List.length_eq_zero, hsp, hrp, hap, hmd]

/-- Claim C3, witness for the amended theorem at a concrete input. -/
theorem claim_c3_witness :
    (Java_org_contentauth_c2pa_Reader_fromStreamNative (some "image/jpeg") 1 true none
      none).raisedMsg.isSome :=
  (claim_c3_raises_except_manifest_reader "image/jpeg" "x" 1 1 1 none [0]
    (by decide) (by decide) (by decide) (by decide)).1

/-- Claim C4, counterexample: addResourceNative, called with builder handle
zero, a null URI and stream handle zero, still invokes the native library
function and raises no domain failure — refuting the claim that every handle
gateway operation validates handle-non-zero before any native call. -/
theorem claim_c4_counterexample :
    (Java_org_contentauth_c2pa_Builder_addResourceNative 0 none 0 (-1)).nativeCalled = true ∧
    (Java_org_contentauth_c2pa_Builder_addResourceNative 0 none 0 (-1)).raisedMsg = none := by
  decide

/-- Claim C4, amended: operations such as reader to-json, builder set-intent
and builder add-action validate handle-non-zero (and required arguments) and
report a domain failure without calling the native library, but builder
add-resource, builder to-archive and signer reserve-size invoke the native
function unconditionally, with no validation at all. -/
theorem claim_c4_validation_partial (native lastErr : Option String)
    (i d r b s sg : Int) (uo : Option String) :
    Java_org_contentauth_c2pa_Reader_toJsonNative 0 native lastErr =
      ⟨false, some "Reader is not initialized", 0, none⟩ ∧
    Java_org_contentauth_c2pa_Builder_setIntentNative 0 i d r =
      ⟨false, some "Builder is not initialized", -1, none⟩ ∧
    Java_org_contentauth_c2pa_Builder_addActionNative 0 (some "a") true r =
      ⟨false, some "Builder and action JSON cannot be null", -1, none⟩ ∧
    Java_org_contentauth_c2pa_Builder_addResourceNative b uo s r = ⟨true, none, r, none⟩ ∧
    Java_org_contentauth_c2pa_Builder_toArchiveNative b s r = ⟨true, none, r, none⟩ ∧
    Java_org_contentauth_c2pa_Signer_reserveSizeNative sg r = ⟨true, none, r, none⟩ := by
  refine ⟨?_, ?_, ?_, rfl, rfl, rfl⟩ <;>
    simp [Java_org_contentauth_c2pa_Reader_toJsonNative,
      Java_org_contentauth_c2pa_Builder_setIntentNative,
      Java_org_contentauth_c2pa_Builder_addActionNative]

/-- Claim C5: on signer free the registry entry for that signer is removed
(under the spec invariant that registry membership is 1:1), its node is
freed, and in the teardown trace the active flag is cleared strictly before
the host callback reference is dropped; the unload drain empties the
registry by the same discipline; and any signer callback arriving on an
inactive context returns -1 with zero dereferences of the host reference. -/
theorem claim_c5_registry_discipline (reg : List SignerContextNode) (s : Nat)
    (envOk : Bool) (ctx : JavaSignerContext) (envOk2 : Bool) (lenN : Nat)
    (lastErr : Option String) (a b sro : Bool) (sig : Option (List Int))
    (hp : Option String) (cap : Nat)
    (hnodup : (reg.map SignerContextNode.signer).Nodup)
    (hctx : ctx.isActive = false) :
    (∀ n ∈ (unregister_signer_context reg s envOk).1, n.signer ≠ s) ∧
    ((∃ n ∈ reg, n.signer = s) →
      CtxEvent.freeNode s ∈ (unregister_signer_context reg s envOk).2) ∧
    setBeforeDrop (unregister_signer_context reg s envOk).2 ∧
    (cleanup_all_signer_contexts reg).1 = [] ∧
    setBeforeDrop (cleanup_all_signer_contexts reg).2 ∧
    java_signer_callback ctx envOk2 lenN lastErr a b sig hp sro cap = ⟨-1, 0, none⟩ := by
  refine ⟨unregister_removes s envOk reg hnodup, unregister_frees_node s envOk reg,
    setBeforeDrop_unregister s envOk reg, ?_, setBeforeDrop_cleanup reg, ?_⟩
  · cases reg <;> rfl
  · simp [java_signer_callback, hctx]

/-- Claim C5, witness at a concrete two-entry registry and inactive context. -/
theorem claim_c5_witness :
    java_signer_callback ⟨false, true⟩ true 4 none true true none none true 64 =
      ⟨-1, 0, none⟩ :=
  (claim_c5_registry_discipline [⟨1, some ⟨true, true⟩⟩, ⟨2, none⟩] 1 true
    ⟨false, true⟩ true 4 none true true true none none 64 (by decide) rfl).2.2.2.2.2

/-- Claim C6: the SignResult construction rule of builder sign.  With valid
arguments and successful host allocation, if the native size is negative a
native failure is raised and no SignResult is produced; if the size is
positive and manifest bytes are present, the bytes are copied into a fresh
host array, the native buffer is freed, and SignResult (size, array) is
returned; if the size is zero, SignResult (0, null) is returned. -/
theorem claim_c6_sign_result_rule (b src dst sg : Int) (fmt : String)
    (lastErr : Option String) (size : Int) (bytes : Option (List Int))
    (hb : b ≠ 0) (hsrc : src ≠ 0) (hdst : dst ≠ 0) (hsg : sg ≠ 0) :
    (size < 0 →
      Java_org_contentauth_c2pa_Builder_signNative b (some fmt) src dst sg true
          lastErr size bytes true true true =
        ⟨some (throw_c2pa_exception lastErr "Failed to sign builder"), none, false⟩) ∧
    (∀ bs, 0 < size → bytes = some bs →
      Java_org_contentauth_c2pa_Builder_signNative b (some fmt) src dst sg true
          lastErr size bytes true true true =
        ⟨none, some (size, some (bs.take size.toNat)), true⟩) ∧
    (size = 0 →
      Java_org_contentauth_c2pa_Builder_signNative b (some fmt) src dst sg true
          lastErr size bytes true true true =
        ⟨none, some (0, none), false⟩) := by
  refine ⟨?_, ?_, ?_⟩
  · intro h
    simp [Java_org_contentauth_c2pa_Builder_signNative, hb, hsrc, hdst, hsg, h]
  · intro bs h hbs
    subst hbs
    simp [Java_org_contentauth_c2pa_Builder_signNative, hb, hsrc, hdst, hsg, h,
      not_lt.mpr (le_of_lt h)]
  · intro h
    subst h
    simp [Java_org_contentauth_c2pa_Builder_signNative, hb, hsrc, hdst, hsg]

/-- Claim C6, witness at a concrete signing with three manifest bytes. -/
theorem claim_c6_witness :
    Java_org_contentauth_c2pa_Builder_signNative 1 (some "image/jpeg") 1 1 1 true
        none 3 (some [5, 6, 7]) true true true =
      ⟨none, some (3, some [5, 6, 7]), true⟩ := by
  have h := (claim_c6_sign_result_rule 1 1 1 1 "image/jpeg" none 3 (some [5, 6, 7])
    (by decide) (by decide) (by decide) (by decide)).2.1 [5, 6, 7] (by decide) rfl
  simpa using h

/-- Claim C7: the marker is stored only on the path where the bridge itself
attached the thread; the destructor detaches iff the marker is set and the
runtime handle is still present; hence over any thread lifetime in which
every get_jni_env call found the thread already attached to the host
runtime, the destructor never detaches the thread. -/
theorem claim_c7_no_foreign_detach (calls : List (Bool × AttachStatus × Bool))
    (jvmAtExit : Bool)
    (h : ∀ c ∈ calls, c.2.1 = AttachStatus.attached) :
    (∀ j s a, (get_jni_env j s a).markerSet = true →
      s = AttachStatus.detachedThread ∧ a = true) ∧
    (∀ m j, thread_detach_destructor m j = (m && j)) ∧
    thread_detach_destructor (threadMarker calls) jvmAtExit = false := by
  refine ⟨?_, fun m j => rfl, ?_⟩
  · intro j s a hms
    cases j <;> cases s <;> cases a <;> simp_all [get_jni_env]
  · rw [threadMarker_all_attached calls h]
    rfl

/-- Claim C7, witness: a thread that was already attached on its one
callback is not detached at exit. -/
theorem claim_c7_witness :
    thread_detach_destructor (threadMarker [(true, AttachStatus.attached, true)]) true =
      false :=
  (claim_c7_no_foreign_detach [(true, AttachStatus.attached, true)] true (by decide)).2.2

/-- Claim C8: the algorithm dispatch accepts exactly the seven spellings
es256, es384, es512, ps256, ps384, ps512, ed25519, and for any other string
the entry point raises a DomainArgument failure with message
"Unknown signing algorithm" and returns without calling c2pa_signer_create. -/
theorem claim_c8_algorithm_whitelist (s : String) (cert : String) (tsa : Option String)
    (certsPinOk allocOk refOk methodOk : Bool) (native : Option Nat) :
    ((parse_signing_alg s).isSome ↔ s ∈ acceptedAlgs) ∧
    (s ∉ acceptedAlgs →
      Java_org_contentauth_c2pa_Signer_nativeFromCallback (some s) (some cert) tsa true
        true certsPinOk allocOk refOk methodOk native =
        ⟨some "Unknown signing algorithm", false, 0⟩) := by
  constructor
  · unfold parse_signing_alg acceptedAlgs
    split_ifs with h1 h2 h3 h4 h5 h6 h7 <;> simp_all
  · intro hmem
    have hnone : parse_signing_alg s = none := by
      unfold parse_signing_alg
      split_ifs with h1 h2 h3 h4 h5 h6 h7 <;>
        first
          | rfl
          | (exfalso; apply hmem; simp_all [acceptedAlgs])
    simp [Java_org_contentauth_c2pa_Signer_nativeFromCallback, hnone]

/-- Claim C8, witness: the spelling rsa256 is rejected before any native
call, with the DomainArgument message. -/
theorem claim_c8_witness :
    "rsa256" ∉ acceptedAlgs ∧
    Java_org_contentauth_c2pa_Signer_nativeFromCallback (some "rsa256") (some "certs")
      none true true true true true true (some 5) =
      ⟨some "Unknown signing algorithm", false, 0⟩ :=
  ⟨by decide,
    (claim_c8_algorithm_whitelist "rsa256" "certs" none true true true true
      (some 5)).2 (by decide)⟩

/-- Claim C9: every successful (non-null) result of the ed25519 sign entry
point is a byte array of exactly 64 bytes — the bridge allocates a 64-byte
host array and copies exactly 64 bytes from the native signature buffer, so
no other length can be returned. -/
theorem claim_c9_ed25519_result_64 (data : Option (List Int)) (pk : Option String)
    (elemsOk pinOk : Bool) (nativeSig : Option (Nat → Int)) (allocOk regionOk : Bool)
    (bs : List Int)
    (h : (Java_org_contentauth_c2pa_C2PA_ed25519SignNative data pk elemsOk pinOk
      nativeSig allocOk regionOk).result = some bs) :
    bs.length = 64 := by
  cases nativeSig with
  | none =>
    unfold Java_org_contentauth_c2pa_C2PA_ed25519SignNative at h
    split_ifs at h
  | some f =>
    unfold Java_org_contentauth_c2pa_C2PA_ed25519SignNative at h
    split_ifs at h
    simp_all
    rw [← h]
    simp

/-- Claim C9, witness: a successful signing of the byte 1 with a constant
native signature source yields a 64-byte result. -/
theorem claim_c9_witness :
    ((List.range 64).map (fun _ => (0 : Int))).length = 64 :=
  claim_c9_ed25519_result_64 (some [1]) (some "key") true true
    (some (fun _ => (0 : Int))) true true
    ((List.range 64).map (fun _ => (0 : Int))) rfl

/-- Claim C10, counterexample: for a null data array the entry point raises
the message "Data and private key cannot be null", not "Data cannot be
empty" as the claim states. -/
theorem claim_c10_counterexample :
    (Java_org_contentauth_c2pa_C2PA_ed25519SignNative none (some "key") true true
      (some (fun _ => (0 : Int))) true true).raisedMsg =
        some "Data and private key cannot be null" ∧
    (Java_org_contentauth_c2pa_C2PA_ed25519SignNative none (some "key") true true
      (some (fun _ => (0 : Int))) true true).raisedMsg ≠
        some "Data cannot be empty" ∧
    (Java_org_contentauth_c2pa_C2PA_ed25519SignNative none (some "key") true true
      (some (fun _ => (0 : Int))) true true).nativeCalled = false := by
  refine ⟨rfl, by decide, rfl⟩

/-- Claim C10, amended: the ed25519 sign entry point raises a domain failure
and performs no native call whenever the data array is null or empty; the
message is "Data and private key cannot be null" for a null array and
"Data cannot be empty" for an empty one. -/
theorem claim_c10_empty_data_check (pk : Option String) (k : String)
    (a b c d a2 b2 c2 d2 : Bool) (f g : Option (Nat → Int)) :
    Java_org_contentauth_c2pa_C2PA_ed25519SignNative none pk a b f c d =
      ⟨some "Data and private key cannot be null", false, none⟩ ∧
    Java_org_contentauth_c2pa_C2PA_ed25519SignNative (some []) (some k) a2 b2 g c2 d2 =
      ⟨some "Data cannot be empty", false, none⟩ := by
  constructor <;> simp [Java_org_contentauth_c2pa_C2PA_ed25519SignNative]
